import Mathlib

/-!
# Audioteka metadata provider (`server.js`)

A shallow embedding of the scrape-and-normalise pipeline of `server.js`:

* the search stage (`AudiotekaProvider.searchBooks`, the `$books.each` callback),
* the enrichment stage (`AudiotekaProvider.getFullMetadata`),
* the request boundary (authorization middleware and the `GET /search` handler).

Modelling conventions.

* A JavaScript computation that may throw is a value of `Except JSError α`;
  `try { body } catch (error) { handler }` is a `match` on the result of the body.
* A JavaScript value that may be `undefined` (or, for `rating`, `null`) is an `Option`;
  an object key that was never written reads as `undefined`, i.e. `none`.
  In a JSON response a key whose value is `undefined` is omitted.
* The network and the markup library are the environment: a fetch followed by
  `cheerio.load` and the fixed selectors is a function returning either an error or the
  texts / attributes the selectors yield (`Entry`, `DetailPage`).
* `Promise.all` over an array of promises is the ordered list of their results, or an
  error when one of them rejects.
* Library functions of the platform (`parseFloat`, `encodeURIComponent`, `Date`) are
  parameters (`Platform`).
* A value of `req.query` is what the query-string parser of Express yields: a string, an
  array or an object (`QueryValue`); it is converted to a string where the program uses
  it as one, and that conversion throws for an object whose `toString` key is
  overwritten.
-/

namespace Audioteka

/-! ## JavaScript values -/

/-- A thrown JavaScript error (only its message is kept). -/
structure JSError where
  message : String
deriving DecidableEq, Repr

/-- A JavaScript number as returned by `parseFloat`: `NaN`, an infinity, or a finite value
`mantissa * 2 ^ exponent` (both zeros are `finite 0 e`). -/
inductive JSNumber where
  | nan : JSNumber
  | infinity (negative : Bool) : JSNumber
  | finite (mantissa : Int) (exponent : Int) : JSNumber
deriving DecidableEq, Repr

/-- Truthiness of a number: everything except `NaN`, `+0` and `-0`. -/
def JSNumber.truthy : JSNumber → Bool
  | .nan => false
  | .infinity _ => true
  | .finite mantissa _ => mantissa != 0

/-- The expression `n || null` for a number `n` (`none` is `null`). -/
def orNull (n : JSNumber) : Option JSNumber :=
  if n.truthy then some n else none

/-- Truthiness of a value that is a string or `undefined`: a non-empty string. -/
def strTruthy : Option String → Bool
  | some s => s != ""
  | none => false

/-- The expression `a || b` where `a` and `b` are strings or `undefined`. -/
def strOr (a b : Option String) : Option String :=
  if strTruthy a then a else b

/-- The expression `a || b` where `a` is a string or `undefined` and `b` is a string. -/
def strOrStr (a : Option String) (b : String) : String :=
  match a with
  | some s => if s != "" then s else b
  | none => b

/-- The expression `a || undefined` for an array or `undefined`: every array, the
empty one included, is truthy. -/
def arrOrUndefined {α : Type} (a : Option (List α)) : Option (List α) :=
  match a with
  | some xs => some xs
  | none => none

/-- String conversion of a value that is a string or `undefined`, as performed by `+`
with a string operand. -/
def jsToString : Option String → String
  | some s => s
  | none => "undefined"

/-- White space and line terminators removed by `String.prototype.trim`. -/
def isJSWhiteSpace (c : Char) : Bool :=
  let n := c.toNat
  n == 0x09 || n == 0x0A || n == 0x0B || n == 0x0C || n == 0x0D || n == 0x20 ||
  n == 0xA0 || n == 0x1680 || (0x2000 ≤ n && n ≤ 0x200A) || n == 0x2028 || n == 0x2029 ||
  n == 0x202F || n == 0x205F || n == 0x3000 || n == 0xFEFF

/-- The method `String.prototype.trim`. -/
def jsTrim (s : String) : String :=
  String.mk ((s.data.dropWhile isJSWhiteSpace).reverse.dropWhile isJSWhiteSpace).reverse

/-- Splitting a character list at every occurrence of `sep` (at least one piece). -/
def splitChars (sep : Char) : List Char → List (List Char)
  | [] => [[]]
  | c :: cs =>
    if c.toNat == sep.toNat then [] :: splitChars sep cs
    else
      match splitChars sep cs with
      | [] => [[c]]
      | piece :: pieces => (c :: piece) :: pieces

/-- The expression `s.split('/').pop()`: the last piece of `s` split at the slashes. -/
def splitPop (s : String) : String :=
  String.mk ((splitChars '/' s.data).getLastD [])

/-- The method `Array.prototype.join` on an array of strings. -/
def jsJoin (sep : String) : List String → String
  | [] => ""
  | [x] => x
  | x :: y :: rest => x ++ sep ++ jsJoin sep (y :: rest)

/-- A value of `req.query.<key>` as the query-string parser of Express yields it: a
string, an array (repeated keys, `key[]=`) or an object (`key[name]=`). -/
inductive QueryValue where
  | str (text : String) : QueryValue
  | arr (items : List QueryValue) : QueryValue
  | obj (fields : List (String × QueryValue)) : QueryValue
deriving Repr

/-- Truthiness of a parsed query value: a non-empty string, and every array and object. -/
def QueryValue.truthy : QueryValue → Bool
  | .str text => text != ""
  | .arr _ => true
  | .obj _ => true

mutual
/-- String conversion of a parsed query value, as performed by a template literal and by
`encodeURIComponent`: a string is itself, an array is its elements joined with a comma,
an object is `[object Object]`, unless its own key `toString` hides the inherited
method: that value is never a function, and the conversion throws a `TypeError`. -/
def QueryValue.toText : QueryValue → Except JSError String
  | .str text => .ok text
  | .arr items => joinTexts items
  | .obj fields =>
    if fields.any (fun field => field.1 == "toString") then
      .error { message := "Cannot convert object to primitive value" }
    else
      .ok "[object Object]"
/-- The method `Array.prototype.join` with the default separator on an array of parsed
query values. -/
def joinTexts : List QueryValue → Except JSError String
  | [] => .ok ""
  | [item] => item.toText
  | item :: next :: rest =>
    match item.toText with
    | .error e => .error e
    | .ok text =>
      match joinTexts (next :: rest) with
      | .error e => .error e
      | .ok texts => .ok (text ++ "," ++ texts)
end

/-! ## Data model -/

/-- The fixed provider descriptor `source: { id, description, link }`. -/
structure Source where
  id : String
  description : String
  link : String
deriving DecidableEq, Repr

/-- The object that flows through the pipeline.  The search stage writes the keys
`id` ... `source` (a Candidate); the enrichment stage adds `narrator` ... `identifiers`
(a FullRecord).  The keys `subtitle`, `publishedDate`, `description` and `tags` are only
ever read (by the response formatter).  `none` is an absent key or `undefined`; for
`rating`, `none` is `null`. -/
structure Book where
  id : String
  title : String
  authors : List String
  url : String
  cover : Option String
  rating : Option JSNumber
  source : Source
  narrator : Option String
  duration : Option String
  publisher : Option String
  type : Option String
  genres : Option (List String)
  series : Option String
  languages : Option (List String)
  identifiers : Option (List (String × String))
  subtitle : Option String
  publishedDate : Option String
  description : Option String
  tags : Option (List String)
deriving DecidableEq, Repr

/-- One node matched by `.adtk-item.teaser_teaser__kRYek` on the results page, given by
what the selectors of the `each` callback yield on it: `.text()` of a selection (the
empty string when nothing matches) and `.attr(..)` (`undefined` when the element or the
attribute is missing). -/
structure Entry where
  /-- Value of `$book.find('.teaser_title__CZ9eq').text()` -/
  titleText : String
  /-- Value of `$book.find('.teaser_mainLink__YBhax').attr('href')` -/
  href : Option String
  /-- Value of `$book.find('.teaser_author__BV8Ke').text()` -/
  authorText : String
  /-- Value of `$book.find('.teaser_cover__2EVLn').attr('src')` -/
  coverSrc : Option String
  /-- Value of `$book.find('.teaser_rating__ksFn3').text()` -/
  ratingText : String
  /-- Value of `$book.attr('data-item-id')` -/
  dataItemId : Option String
deriving DecidableEq, Repr

/-- A loaded detail page, given by what the selectors of `getFullMetadata` yield. -/
structure DetailPage where
  /-- Value of `$('tr:contains("Głosy") td:last-child a').text()` -/
  narratorText : String
  /-- Value of `$('tr:contains("Długość") td:last-child').text()` -/
  durationText : String
  /-- Value of `$('tr:contains("Wydawca") td:last-child a').text()` -/
  publisherText : String
  /-- Value of `$('tr:contains("Typ") td:last-child').text()` -/
  typeText : String
  /-- Text of each node of `$('tr:contains("Kategoria") td:last-child a')` -/
  genreTexts : List String
  /-- Text of each node of `$('.Collections__CollectionList-sc-cd06413d-1 a')` -/
  seriesTexts : List String
  /-- Value of `$('.StarIcon__Label-sc-96b8391b-2').text()` -/
  ratingText : String
  /-- Value of `$('.ProductTop-styled__Cover-sc-aae7c7ba-0').attr('src')` -/
  coverSrc : Option String
deriving DecidableEq, Repr

/-- Library functions of the platform used by the program. -/
structure Platform where
  parseFloat : String → JSNumber
  encodeURIComponent : String → String
  /-- `new Date(d).getFullYear().toString()` -/
  fullYear : String → String

/-- The remote site.  `search url` is the outcome of `axios.get(url)` followed by
`cheerio.load` and the result-entry selection.  `detail i url` is the outcome of the
`i`-th detail request of the fan-out (`axios.get(url)` followed by `cheerio.load` and the
detail selectors); the index lets requests for equal URLs have different outcomes. -/
structure Network where
  search : String → Except JSError (List Entry)
  detail : Nat → String → Except JSError DetailPage

/-- The value `{ matches }` returned by `searchBooks`. -/
structure SearchResult where
  matches_ : List Book
deriving DecidableEq, Repr

/-! ## The provider -/

/-- The constructor's `this.id`. -/
def providerId : String := "audioteka"

/-- The constructor's `this.name`. -/
def providerName : String := "Audioteka"

/-- The constructor's `this.baseUrl`. -/
def baseUrl : String := "https://audioteka.com"

/-- The constructor's `this.searchUrl`. -/
def searchUrl : String := "https://audioteka.com/pl/search"

/-- Body of the `try` block of `getFullMetadata`. -/
def getFullMetadataTry (P : Platform) (axiosGet : String → Except JSError DetailPage)
    (m : Book) : Except JSError Book :=
  match axiosGet m.url with
  | .error e => .error e
  | .ok page =>
    let narrator := jsTrim page.narratorText
    let duration := jsTrim page.durationText
    let publisher := jsTrim page.publisherText
    let type := jsTrim page.typeText
    let genres := page.genreTexts.map jsTrim
    let series := page.seriesTexts.map jsTrim
    let rating := orNull (P.parseFloat (jsTrim page.ratingText))
    let cover := strOr page.coverSrc m.cover
    .ok { m with
      cover := cover
      narrator := some narrator
      duration := some duration
      publisher := some publisher
      type := some type
      genres := some genres
      series := if series.length > 0 then series[0]? else none
      rating := rating
      languages := some ["pol"]
      identifiers := some [("audioteka", m.id)] }

/-- The method `AudiotekaProvider.getFullMetadata(match)`: the `try` block, and on any
exception the `catch` block, which returns `match`. -/
def getFullMetadata (P : Platform) (axiosGet : String → Except JSError DetailPage)
    (m : Book) : Except JSError Book :=
  match getFullMetadataTry P axiosGet m with
  | .ok fullMetadata => .ok fullMetadata
  | .error _ => .ok m

/-- The inclusion test `title && bookUrl && authors.length > 0` of the `each` callback. -/
def inclusionTest (title bookUrl : String) (authors : List String) : Bool :=
  title != "" && bookUrl != "" && decide (authors.length > 0)

/-- The callback of `$books.each`: `matches` is the array built so far, the result is
the array after the callback ran on `element`. -/
def eachCallback (P : Platform) (matches_ : List Book) (element : Entry) : List Book :=
  let title := jsTrim element.titleText
  let bookUrl := baseUrl ++ jsToString element.href
  let authors := [jsTrim element.authorText]
  let cover := element.coverSrc
  let rating := orNull (P.parseFloat (jsTrim element.ratingText))
  let id := strOrStr element.dataItemId (splitPop bookUrl)
  if inclusionTest title bookUrl authors then
    matches_ ++ [{
      id := id
      title := title
      authors := authors
      url := bookUrl
      cover := cover
      rating := rating
      source := { id := providerId, description := providerName, link := baseUrl }
      narrator := none, duration := none, publisher := none, type := none
      genres := none, series := none, languages := none, identifiers := none
      subtitle := none, publishedDate := none, description := none, tags := none }]
  else
    matches_

/-- The search parse loop: `const matches = []; $books.each(callback)`. -/
def parseEntries (P : Platform) (books : List Entry) : List Book :=
  books.foldl (eachCallback P) []

/-- The function `Promise.all`: the results in the order of the promises, or an error
when one of them is rejected. -/
def promiseAll {α : Type} : List (Except JSError α) → Except JSError (List α)
  | [] => .ok []
  | p :: ps =>
    match p with
    | .error e => .error e
    | .ok v =>
      match promiseAll ps with
      | .error e => .error e
      | .ok vs => .ok (v :: vs)

/-- The fan-out `matches.map(match => this.getFullMetadata(match))`; the `i`-th call
issues the `i`-th detail request. -/
def fanOut (P : Platform) (N : Network) (matches_ : List Book) : List (Except JSError Book) :=
  matches_.enum.map fun im => getFullMetadata P (N.detail im.1) im.2

/-- Body of the `try` block of `searchBooks`.  The template literal of the first log
line converts `query` and `author` to strings; `encodeURIComponent(query)` converts
`query` again, with the same result. -/
def searchBooksTry (P : Platform) (N : Network) (query author : QueryValue) :
    Except JSError SearchResult :=
  match query.toText with
  | .error e => .error e
  | .ok queryText =>
    match author.toText with
    | .error e => .error e
    | .ok _ =>
      let url := searchUrl ++ "?query=" ++ P.encodeURIComponent queryText
      match N.search url with
      | .error e => .error e
      | .ok books =>
        let matches_ := parseEntries P books
        match promiseAll (fanOut P N matches_) with
        | .error e => .error e
        | .ok fullMetadata => .ok { matches_ := fullMetadata }

/-- The method `AudiotekaProvider.searchBooks(query, author = '')`: the `try` block, and
on any exception the `catch` block, which returns `{ matches: [] }`.  The arguments are
the values the handler passes, `req.query.query` and `req.query.author`; the default
`''` stands for an `author` that is `undefined`. -/
def searchBooks (P : Platform) (N : Network) (query : QueryValue)
    (author : Option QueryValue) : Except JSError SearchResult :=
  match searchBooksTry P N query (author.getD (.str "")) with
  | .ok result => .ok result
  | .error _ => .ok { matches_ := [] }

/-! ## The request boundary -/

/-- The part of a request the server reads: `req.headers['authorization']`,
`req.query.query` and `req.query.author`. -/
structure Request where
  authorization : Option String
  query : Option QueryValue
  author : Option QueryValue
deriving Repr

/-- One element of a `series` array of the response. -/
structure SeriesEntry where
  series : String
  sequence : Option String
deriving DecidableEq, Repr

/-- One element of the `matches` array of the response; a field that is `none` is
`undefined` and therefore not part of the JSON object. -/
structure ResponseRecord where
  title : String
  subtitle : Option String
  author : String
  narrator : Option String
  publisher : Option String
  publishedYear : Option String
  description : Option String
  cover : Option String
  isbn : Option String
  asin : Option String
  genres : Option (List String)
  tags : Option (List String)
  series : Option (List SeriesEntry)
  language : Option String
  duration : Option String
deriving DecidableEq, Repr

/-- A JSON response body: `{ error }` or `{ matches }`. -/
inductive Body where
  | error (message : String) : Body
  | matches_ (records : List ResponseRecord) : Body
deriving DecidableEq, Repr

/-- An HTTP response: status code and JSON body. -/
structure Response where
  status : Nat
  body : Body
deriving DecidableEq, Repr

/-- The object literal built for each `book` in `formattedResults`. -/
def formatBook (P : Platform) (book : Book) : ResponseRecord :=
  { title := book.title
    subtitle := strOr book.subtitle none
    author := jsJoin ", " book.authors
    narrator := strOr book.narrator none
    publisher := strOr book.publisher none
    publishedYear :=
      match book.publishedDate with
      | some d => if d != "" then some (P.fullYear d) else none
      | none => none
    description := strOr book.description none
    cover := strOr book.cover none
    isbn := strOr (book.identifiers.bind fun ids => ids.lookup "isbn") none
    asin := strOr (book.identifiers.bind fun ids => ids.lookup "asin") none
    genres := arrOrUndefined book.genres
    tags := arrOrUndefined book.tags
    series :=
      match book.series with
      | some s => if s != "" then some [{ series := s, sequence := none }] else none
      | none => none
    language :=
      match book.languages with
      | some ls => if ls.length > 0 then ls[0]? else none
      | none => none
    duration := strOr book.duration none }

/-- Body of the `try` block of the `GET /search` handler, with the provider's
`searchBooks` passed explicitly. -/
def searchHandlerTry (P : Platform)
    (provider : QueryValue → Option QueryValue → Except JSError SearchResult)
    (req : Request) : Except JSError Response :=
  let author := req.author
  match req.query with
  | none => .ok { status := 400, body := .error "Query parameter is required" }
  | some query =>
    if !query.truthy then
      .ok { status := 400, body := .error "Query parameter is required" }
    else
      match provider query author with
      | .error e => .error e
      | .ok results =>
        .ok { status := 200, body := .matches_ (results.matches_.map (formatBook P)) }

/-- The `GET /search` handler: the `try` block, and on any exception status 500. -/
def searchHandler (P : Platform)
    (provider : QueryValue → Option QueryValue → Except JSError SearchResult)
    (req : Request) : Response :=
  match searchHandlerTry P provider req with
  | .ok response => response
  | .error _ => { status := 500, body := .error "Internal server error" }

/-- The authorization middleware registered with `app.use`. -/
def authorizationMiddleware (req : Request) (next : Request → Response) : Response :=
  let apiKey := req.authorization
  if !strTruthy apiKey then
    { status := 401, body := .error "Unauthorized" }
  else
    next req

/-- The application on a `GET /search` request: the middleware chain followed by the
route handler (`cors()` passes such a request on unchanged). -/
def app (P : Platform)
    (provider : QueryValue → Option QueryValue → Except JSError SearchResult)
    (req : Request) : Response :=
  authorizationMiddleware req (searchHandler P provider)

/-- The running server: `app` with the process-wide `provider` instance. -/
def server (P : Platform) (N : Network) (req : Request) : Response :=
  app P (searchBooks P N) req

/-! ## Auxiliary definitions for the statements -/

/-- The test the `each` callback applies to an entry, as a predicate on the entry. -/
def entryIncluded (element : Entry) : Bool :=
  inclusionTest (jsTrim element.titleText) (baseUrl ++ jsToString element.href)
    [jsTrim element.authorText]

/-- The Candidate the `each` callback pushes for an entry that passes its test. -/
def entryCandidate (P : Platform) (element : Entry) : Book :=
  { id := strOrStr element.dataItemId (splitPop (baseUrl ++ jsToString element.href))
    title := jsTrim element.titleText
    authors := [jsTrim element.authorText]
    url := baseUrl ++ jsToString element.href
    cover := element.coverSrc
    rating := orNull (P.parseFloat (jsTrim element.ratingText))
    source := { id := providerId, description := providerName, link := baseUrl }
    narrator := none, duration := none, publisher := none, type := none
    genres := none, series := none, languages := none, identifiers := none
    subtitle := none, publishedDate := none, description := none, tags := none }

/-- The URL requested by `searchBooks` for a query whose string conversion is
`queryText`. -/
def searchRequestUrl (P : Platform) (queryText : String) : String :=
  searchUrl ++ "?query=" ++ P.encodeURIComponent queryText

/-- The reading of "the `query` parameter is absent or empty" on a request: no value
was supplied for the parameter, or every supplied value is the empty string. -/
def queryAbsentOrEmpty : Option QueryValue → Bool
  | none => true
  | some (.str text) => text == ""
  | some (.arr items) =>
    items.all fun item =>
      match item with
      | .str text => text == ""
      | _ => false
  | some (.obj _) => false

/-- The response record that carries search-stage data only. -/
def searchStageRecord (c : Book) : ResponseRecord :=
  { title := c.title
    subtitle := none
    author := jsJoin ", " c.authors
    narrator := none
    publisher := none
    publishedYear := none
    description := none
    cover := strOr c.cover none
    isbn := none
    asin := none
    genres := none
    tags := none
    series := none
    language := none
    duration := none }

/-! ## Sample inputs -/

/-- A platform for the examples: `parseFloat` reads the text `4.5`, every other text is
not a number; the other two functions return their argument. -/
def samplePlatform : Platform :=
  { parseFloat := fun s => if s == "4.5" then .finite 9 (-1) else .nan
    encodeURIComponent := fun s => s
    fullYear := fun s => s }

/-- A complete result entry. -/
def entryDiuna : Entry :=
  { titleText := "  Diuna "
    href := some "/pl/audiobook/diuna"
    authorText := "Frank Herbert"
    coverSrc := some "https://img.example/diuna.jpg"
    ratingText := "4.5"
    dataItemId := none }

/-- A result entry whose title element is missing. -/
def entryNoTitle : Entry :=
  { titleText := "  "
    href := some "/pl/audiobook/x"
    authorText := "Anonim"
    coverSrc := none
    ratingText := ""
    dataItemId := some "x-1" }

/-- A result entry whose main link has no `href` attribute. -/
def entryNoHref : Entry :=
  { titleText := "Solaris"
    href := none
    authorText := "Stanisław Lem"
    coverSrc := none
    ratingText := ""
    dataItemId := none }

/-- A result entry whose author element is missing. -/
def entryNoAuthor : Entry :=
  { titleText := "Diuna"
    href := some "/pl/audiobook/diuna"
    authorText := ""
    coverSrc := none
    ratingText := ""
    dataItemId := none }

/-- A detail page without cover image, narrator, category links, series and rating
label. -/
def pageBare : DetailPage :=
  { narratorText := ""
    durationText := "21h 3min"
    publisherText := "Rebis"
    typeText := "Audiobook"
    genreTexts := []
    seriesTexts := []
    ratingText := ""
    coverSrc := none }

/-- A network whose search request fails. -/
def networkDown : Network :=
  { search := fun _ => .error { message := "connect ECONNREFUSED" }
    detail := fun _ _ => .error { message := "connect ECONNREFUSED" } }

/-- A network whose results page has no result entries. -/
def networkNoResults : Network :=
  { search := fun _ => .ok []
    detail := fun _ _ => .error { message := "connect ECONNREFUSED" } }

/-- A network whose results page has three entries; the first detail request fails,
the others succeed. -/
def networkMixed : Network :=
  { search := fun _ => .ok [entryDiuna, entryNoTitle, entryNoHref]
    detail := fun i _ => if i == 0 then .error { message := "timeout" } else .ok pageBare }

/-- A network whose results page has the single entry `entryNoAuthor` and whose detail
requests fail. -/
def networkNoAuthor : Network :=
  { search := fun _ => .ok [entryNoAuthor]
    detail := fun _ _ => .error { message := "timeout" } }

/-- A network whose results page has the single entry `entryDiuna` and whose detail
requests return `pageBare`. -/
def networkBare : Network :=
  { search := fun _ => .ok [entryDiuna]
    detail := fun _ _ => .ok pageBare }

/-- An authorized request for the query `Diuna`. -/
def requestDiuna : Request :=
  { authorization := some "Bearer abs", query := some (.str "Diuna"), author := none }

/-- The authorized request `GET /search?query=&query=`: the parameter is supplied
twice, both times empty, and parsed to the array `['', '']`. -/
def requestEmptyTwice : Request :=
  { authorization := some "Bearer abs"
    query := some (.arr [.str "", .str ""])
    author := none }

/-! ## Lemmas -/

theorem baseUrl_append_ne_empty (s : String) : (baseUrl ++ s != "") = true := by
  have h : (baseUrl ++ s).data ≠ "".data := by
    rw [String.data_append]
    simp [baseUrl]
  have h2 : baseUrl ++ s ≠ "" := fun hc => h (by rw [hc])
  simpa using h2

theorem entryIncluded_eq (element : Entry) :
    entryIncluded element = (jsTrim element.titleText != "") := by
  simp only [entryIncluded, inclusionTest, baseUrl_append_ne_empty]
  simp

theorem eachCallback_eq (P : Platform) (acc : List Book) (element : Entry) :
    eachCallback P acc element =
      if entryIncluded element then acc ++ [entryCandidate P element] else acc := rfl

theorem foldl_eachCallback (P : Platform) (books : List Entry) (acc : List Book) :
    books.foldl (eachCallback P) acc =
      acc ++ (books.filter entryIncluded).map (entryCandidate P) := by
  induction books generalizing acc with
  | nil => simp
  | cons element rest ih =>
    rw [List.foldl_cons, ih, eachCallback_eq]
    by_cases h : entryIncluded element = true
    · simp [h]
    · simp [h]

theorem parseEntries_eq (P : Platform) (books : List Entry) :
    parseEntries P books = (books.filter entryIncluded).map (entryCandidate P) := by
  simp [parseEntries, foldl_eachCallback]

theorem getFullMetadata_of_error (P : Platform) (axiosGet : String → Except JSError DetailPage)
    (m : Book) (e : JSError) (h : axiosGet m.url = .error e) :
    getFullMetadata P axiosGet m = .ok m := by
  simp [getFullMetadata, getFullMetadataTry, h]

theorem getFullMetadata_congr (P : Platform) (g g' : String → Except JSError DetailPage)
    (m : Book) (h : g m.url = g' m.url) :
    getFullMetadata P g m = getFullMetadata P g' m := by
  simp [getFullMetadata, getFullMetadataTry, h]

theorem getFullMetadata_base (P : Platform) (g : String → Except JSError DetailPage)
    (m : Book) :
    ∃ r, getFullMetadata P g m = .ok r ∧ r.id = m.id ∧ r.title = m.title ∧
      r.authors = m.authors ∧ r.url = m.url ∧ r.source = m.source := by
  unfold getFullMetadata getFullMetadataTry
  cases h : g m.url with
  | error e => exact ⟨m, rfl, rfl, rfl, rfl, rfl, rfl⟩
  | ok page => exact ⟨_, rfl, rfl, rfl, rfl, rfl, rfl⟩

theorem promiseAll_of_all_ok {α : Type} (ps : List (Except JSError α))
    (h : ∀ p ∈ ps, ∃ v, p = .ok v) :
    ∃ vs, promiseAll ps = .ok vs ∧ vs.map Except.ok = ps := by
  induction ps with
  | nil => exact ⟨[], rfl, rfl⟩
  | cons p ps ih =>
    obtain ⟨v, hv⟩ := h p (List.mem_cons_self _ _)
    obtain ⟨vs, hvs, hmap⟩ := ih (fun q hq => h q (List.mem_cons_of_mem _ hq))
    refine ⟨v :: vs, ?_, ?_⟩
    · simp [promiseAll, hv, hvs]
    · simp [hv, hmap]

theorem fanOut_getElem? (P : Platform) (N : Network) (ms : List Book) (i : Nat) :
    (fanOut P N ms)[i]? = ms[i]?.map fun m => getFullMetadata P (N.detail i) m := by
  simp only [fanOut, List.getElem?_map, List.getElem?_enum, Option.map_map]
  rfl

theorem fanOut_all_ok (P : Platform) (N : Network) (ms : List Book) :
    ∀ p ∈ fanOut P N ms, ∃ v, p = .ok v := by
  intro p hp
  simp only [fanOut, List.mem_map] at hp
  obtain ⟨im, _, rfl⟩ := hp
  obtain ⟨r, hr, _⟩ := getFullMetadata_base P (N.detail im.1) im.2
  exact ⟨r, hr⟩

theorem searchBooks_of_page (P : Platform) (N : Network) (query : QueryValue)
    (author : Option QueryValue) (queryText authorText : String) (books : List Entry)
    (hq : query.toText = .ok queryText)
    (ha : (author.getD (.str "")).toText = .ok authorText)
    (h : N.search (searchRequestUrl P queryText) = .ok books) :
    ∃ records, searchBooks P N query author = .ok { matches_ := records } ∧
      records.map Except.ok = fanOut P N (parseEntries P books) := by
  obtain ⟨vs, hvs, hmap⟩ := promiseAll_of_all_ok _ (fanOut_all_ok P N (parseEntries P books))
  refine ⟨vs, ?_, hmap⟩
  unfold searchRequestUrl at h
  simp [searchBooks, searchBooksTry, hq, ha, h, hvs]

theorem searchBooks_spec (P : Platform) (N : Network) (query : QueryValue)
    (author : Option QueryValue) (queryText authorText : String) (books : List Entry)
    (hq : query.toText = .ok queryText)
    (ha : (author.getD (.str "")).toText = .ok authorText)
    (hpage : N.search (searchRequestUrl P queryText) = .ok books) :
    ∃ records, searchBooks P N query author = .ok { matches_ := records } ∧
      records.length = (parseEntries P books).length ∧
      ∀ i c, (parseEntries P books)[i]? = some c →
        ∃ r, records[i]? = some r ∧ getFullMetadata P (N.detail i) c = .ok r := by
  obtain ⟨records, hres, hmap⟩ :=
    searchBooks_of_page P N query author queryText authorText books hq ha hpage
  refine ⟨records, hres, ?_, ?_⟩
  · have hlen := congrArg List.length hmap
    simpa [fanOut] using hlen
  · intro i c hc
    have hi := congrArg (fun l => l[i]?) hmap
    simp only [List.getElem?_map, fanOut_getElem?, hc, Option.map_some'] at hi
    cases hr : records[i]? with
    | none => simp [hr] at hi
    | some r =>
      refine ⟨r, rfl, ?_⟩
      simp only [hr, Option.map_some', Option.some.injEq] at hi
      exact hi.symm

theorem formatBook_entryCandidate (P P' : Platform) (element : Entry) :
    formatBook P (entryCandidate P' element) = searchStageRecord (entryCandidate P' element) := by
  simp [formatBook, entryCandidate, searchStageRecord, strOr, strTruthy, arrOrUndefined]

theorem parseEntries_getElem? (P : Platform) (books : List Entry) (i : Nat) (c : Book)
    (hc : (parseEntries P books)[i]? = some c) : ∃ element, c = entryCandidate P element := by
  have hmem : c ∈ parseEntries P books := List.getElem?_mem hc
  rw [parseEntries_eq, List.mem_map] at hmem
  obtain ⟨element, _, h⟩ := hmem
  exact ⟨element, h.symm⟩

theorem truthy_of_ne_empty (query : QueryValue) (hne : query ≠ .str "") :
    query.truthy = true := by
  cases query with
  | str text =>
    have h : text ≠ "" := fun hc => hne (by rw [hc])
    simpa [QueryValue.truthy] using h
  | arr items => rfl
  | obj fields => rfl

theorem app_of_ok (P : Platform)
    (provider : QueryValue → Option QueryValue → Except JSError SearchResult)
    (req : Request) (query : QueryValue) (result : SearchResult)
    (hauth : strTruthy req.authorization = true) (hquery : req.query = some query)
    (hne : query ≠ .str "") (hres : provider query req.author = .ok result) :
    app P provider req =
      { status := 200, body := .matches_ (result.matches_.map (formatBook P)) } := by
  simp [app, authorizationMiddleware, searchHandler, searchHandlerTry, hauth, hquery,
    truthy_of_ne_empty query hne, hres]

theorem searchBooks_total (P : Platform) (N : Network) (query : QueryValue)
    (author : Option QueryValue) : ∃ result, searchBooks P N query author = .ok result := by
  unfold searchBooks
  cases searchBooksTry P N query (author.getD (.str "")) with
  | error e => exact ⟨_, rfl⟩
  | ok result => exact ⟨_, rfl⟩

theorem app_unauthorized (P : Platform)
    (provider : QueryValue → Option QueryValue → Except JSError SearchResult)
    (req : Request) (h : strTruthy req.authorization = false) :
    app P provider req = { status := 401, body := .error "Unauthorized" } := by
  simp [app, authorizationMiddleware, h]

theorem app_missing_query (P : Platform)
    (provider : QueryValue → Option QueryValue → Except JSError SearchResult)
    (req : Request) (hauth : strTruthy req.authorization = true)
    (h : req.query = none ∨ req.query = some (.str "")) :
    app P provider req = { status := 400, body := .error "Query parameter is required" } := by
  rcases h with hq | hq
  · simp [app, authorizationMiddleware, searchHandler, searchHandlerTry, hauth, hq]
  · simp [app, authorizationMiddleware, searchHandler, searchHandlerTry, hauth, hq,
      QueryValue.truthy]

theorem strTruthy_of_absent_or_empty (a : Option String) (h : a = none ∨ a = some "") :
    strTruthy a = false := by
  rcases h with h | h <;> simp [h, strTruthy]

theorem strTruthy_of_present (a : Option String) (h : ∃ s, a = some s ∧ s ≠ "") :
    strTruthy a = true := by
  obtain ⟨s, hs, hne⟩ := h
  simp [hs, strTruthy, hne]

/-! ## Enrichment stage -/

/-- C1 (identity fallback of `getFullMetadata`): when the detail request, or the parse
of its body, throws, `getFullMetadata(match)` does not throw and resolves to `match`
itself: every field is the one of `match` and no enrichment key is added. -/
theorem getFullMetadata_identity_fallback (P : Platform)
    (axiosGet : String → Except JSError DetailPage) (m : Book) (e : JSError)
    (hfail : axiosGet m.url = .error e) :
    getFullMetadata P axiosGet m = .ok m := by
  unfold getFullMetadata getFullMetadataTry
  rw [hfail]

/-- Witness of C1: the Candidate of `entryDiuna` on a network that is down. -/
theorem getFullMetadata_identity_fallback_witness :
    networkDown.detail 0 (entryCandidate samplePlatform entryDiuna).url =
        .error { message := "connect ECONNREFUSED" } ∧
      getFullMetadata samplePlatform (networkDown.detail 0)
          (entryCandidate samplePlatform entryDiuna) =
        .ok (entryCandidate samplePlatform entryDiuna) :=
  ⟨rfl, getFullMetadata_identity_fallback samplePlatform (networkDown.detail 0)
    (entryCandidate samplePlatform entryDiuna) { message := "connect ECONNREFUSED" } rfl⟩

/-- C6 (failing input): a Candidate with rating 4.5 and a cover, enriched from a detail
page that was fetched successfully but has neither a rating label nor a cover image.
The cover of the Candidate is kept, its rating is replaced by `null`. -/
theorem getFullMetadata_rating_replaced_by_null :
    (entryCandidate samplePlatform entryDiuna).rating = some (.finite 9 (-1)) ∧
      (entryCandidate samplePlatform entryDiuna).cover =
        some "https://img.example/diuna.jpg" ∧
      (getFullMetadata samplePlatform (networkBare.detail 0)
          (entryCandidate samplePlatform entryDiuna)).map
        (fun r => (r.cover, r.rating)) =
        .ok (some "https://img.example/diuna.jpg", none) :=
  ⟨rfl, rfl, rfl⟩

/-! ## Search stage -/

/-- C2 (order preservation of `searchBooks`): when the results page yields the
Candidates `c_0 .. c_(N-1)`, then for every assignment of outcomes to the detail
requests `searchBooks` resolves to exactly `N` records, and the `i`-th record is what
`getFullMetadata` resolves to on `c_i` with the `i`-th request; it has the `id`,
`title`, `authors` and `url` of `c_i`.  The results page is the one fetched for the
string conversion of `query`; for a string `query` that is `query` itself. -/
theorem searchBooks_order_preserved (P : Platform) (N : Network) (query : QueryValue)
    (author : Option QueryValue) (queryText authorText : String) (books : List Entry)
    (hq : query.toText = .ok queryText)
    (ha : (author.getD (.str "")).toText = .ok authorText)
    (hpage : N.search (searchRequestUrl P queryText) = .ok books) :
    ∃ records, searchBooks P N query author = .ok { matches_ := records } ∧
      records.length = (parseEntries P books).length ∧
      ∀ i c, (parseEntries P books)[i]? = some c →
        ∃ r, records[i]? = some r ∧ getFullMetadata P (N.detail i) c = .ok r ∧
          r.id = c.id ∧ r.title = c.title ∧ r.authors = c.authors ∧ r.url = c.url := by
  obtain ⟨records, hres, hlen, hidx⟩ :=
    searchBooks_spec P N query author queryText authorText books hq ha hpage
  refine ⟨records, hres, hlen, ?_⟩
  intro i c hc
  obtain ⟨r, hr, hfull⟩ := hidx i c hc
  obtain ⟨r', hr', hid, htitle, hauthors, hurl, _⟩ := getFullMetadata_base P (N.detail i) c
  have heq : r = r' := by
    rw [hfull] at hr'
    exact Except.ok.inj hr'
  subst heq
  exact ⟨r, hr, hfull, hid, htitle, hauthors, hurl⟩

/-- Witness of C2: a results page with three entries, of which two are Candidates; the
first detail request fails and the second succeeds. -/
theorem searchBooks_order_preserved_witness :
    networkMixed.search (searchRequestUrl samplePlatform "Diuna") =
        .ok [entryDiuna, entryNoTitle, entryNoHref] ∧
      ∃ records, searchBooks samplePlatform networkMixed (.str "Diuna") none =
          .ok { matches_ := records } ∧
        records.length =
          (parseEntries samplePlatform [entryDiuna, entryNoTitle, entryNoHref]).length ∧
        ∀ i c, (parseEntries samplePlatform [entryDiuna, entryNoTitle, entryNoHref])[i]? =
            some c →
          ∃ r, records[i]? = some r ∧
            getFullMetadata samplePlatform (networkMixed.detail i) c = .ok r ∧
            r.id = c.id ∧ r.title = c.title ∧ r.authors = c.authors ∧ r.url = c.url :=
  ⟨rfl, searchBooks_order_preserved samplePlatform networkMixed (.str "Diuna") none
    "Diuna" "" [entryDiuna, entryNoTitle, entryNoHref] rfl rfl rfl⟩

/-- C3 (search failure degrades to no results): when the search request fails, or the
results page has no result entry, `searchBooks` does not throw and resolves to
`{ matches: [] }`, for every query and author.  The request is the one for the string
conversion of `query`; for a string `query` that is `query` itself. -/
theorem searchBooks_failure_gives_no_matches (P : Platform) (N : Network)
    (query : QueryValue) (author : Option QueryValue)
    (h : ∀ queryText, query.toText = .ok queryText →
      (∃ e, N.search (searchRequestUrl P queryText) = .error e) ∨
        N.search (searchRequestUrl P queryText) = .ok []) :
    searchBooks P N query author = .ok { matches_ := [] } := by
  unfold searchBooks searchBooksTry
  cases hq : query.toText with
  | error e => rfl
  | ok queryText =>
    cases ha : (author.getD (.str "")).toText with
    | error e => rfl
    | ok authorText =>
      rcases h queryText hq with ⟨e, he⟩ | hempty
      · unfold searchRequestUrl at he
        simp [he]
      · unfold searchRequestUrl at hempty
        simp [hempty, parseEntries, fanOut, promiseAll]

/-- Witness of C3: a network that is down, and a results page without entries. -/
theorem searchBooks_failure_gives_no_matches_witness :
    searchBooks samplePlatform networkDown (.str "Diuna") (some (.str "Herbert")) =
        .ok { matches_ := [] } ∧
      searchBooks samplePlatform networkNoResults (.str "Diuna") none =
        .ok { matches_ := [] } :=
  ⟨searchBooks_failure_gives_no_matches samplePlatform networkDown (.str "Diuna")
      (some (.str "Herbert"))
      (fun _ _ => Or.inl ⟨{ message := "connect ECONNREFUSED" }, rfl⟩),
    searchBooks_failure_gives_no_matches samplePlatform networkNoResults (.str "Diuna") none
      (fun _ _ => Or.inr rfl)⟩

/-- C4 (partial-validity independence of the parse loop): the Candidates are the
order-preserving filter of the entries by the test of the callback, each kept entry
giving its one Candidate; an entry whose trimmed title is empty adds nothing, and an
entry with a non-empty title, an `href` and a non-empty author text adds exactly its
Candidate. -/
theorem parseEntries_validity_independence (P : Platform) (books : List Entry) :
    parseEntries P books = (books.filter entryIncluded).map (entryCandidate P) ∧
      (∀ acc element, jsTrim element.titleText = "" → eachCallback P acc element = acc) ∧
      (∀ acc element, jsTrim element.titleText ≠ "" → element.href.isSome = true →
        jsTrim element.authorText ≠ "" →
        eachCallback P acc element = acc ++ [entryCandidate P element]) := by
  refine ⟨parseEntries_eq P books, ?_, ?_⟩
  · intro acc element htitle
    rw [eachCallback_eq, entryIncluded_eq, htitle]
    rfl
  · intro acc element htitle _ _
    rw [eachCallback_eq, entryIncluded_eq]
    simp [htitle]

/-- Witness of C4: a results page whose second entry has a blank title. -/
theorem parseEntries_validity_independence_witness :
    parseEntries samplePlatform [entryDiuna, entryNoTitle, entryNoHref] =
        [entryCandidate samplePlatform entryDiuna, entryCandidate samplePlatform entryNoHref] ∧
      eachCallback samplePlatform [] entryNoTitle = [] ∧
      eachCallback samplePlatform [] entryDiuna = [] ++ [entryCandidate samplePlatform entryDiuna] :=
  ⟨(parseEntries_validity_independence samplePlatform
      [entryDiuna, entryNoTitle, entryNoHref]).1.trans rfl,
    (parseEntries_validity_independence samplePlatform []).2.1 [] entryNoTitle (by decide),
    (parseEntries_validity_independence samplePlatform []).2.2 [] entryDiuna (by decide) rfl
      (by decide)⟩

/-- C5 (failing input): a result entry with a title and an author whose main link has no
`href` attribute.  The parse loop emits a Candidate for it; its `url` is the base
origin followed by the text `undefined`. -/
theorem parseEntries_missing_href_emits_candidate (P : Platform) :
    entryNoHref.href = none ∧
      (parseEntries P [entryNoHref]).map (fun c => (c.title, c.url, c.id)) =
        [("Solaris", "https://audioteka.comundefined", "audioteka.comundefined")] := by
  exact ⟨rfl, rfl⟩

/-! ## Request boundary -/

/-- C7 (counterexample): the authorized request `GET /search?query=&query=` supplies
the `query` parameter with empty values only.  It is parsed to the array `['', '']`,
which is truthy, so the answer is not 400: the provider is invoked (when it throws the
answer is 500) and the server answers 200 with the records of the provider. -/
theorem search_empty_query_values_not_rejected :
    queryAbsentOrEmpty requestEmptyTwice.query = true ∧
      server samplePlatform networkBare requestEmptyTwice =
        { status := 200
          body := .matches_ [
            { title := "Diuna", author := "Frank Herbert", subtitle := none
              narrator := none, publisher := some "Rebis", publishedYear := none
              description := none, cover := some "https://img.example/diuna.jpg"
              isbn := none, asin := none, genres := some [], tags := none
              series := none, language := some "pol", duration := some "21h 3min" }] } ∧
      server samplePlatform networkBare requestEmptyTwice ≠
        { status := 400, body := .error "Query parameter is required" } ∧
      app samplePlatform (fun _ _ => .error { message := "provider invoked" })
          requestEmptyTwice =
        { status := 500, body := .error "Internal server error" } :=
  ⟨rfl, rfl, by decide, rfl⟩

/-- C7 (amended; status decision for `GET /search`): an absent or empty `Authorization`
header gives 401 `Unauthorized` whatever the query is and whatever the provider would do
(it is not consulted); otherwise a `query` value that is `undefined` or the empty
string gives 400 `Query parameter is required`, again for every provider; otherwise,
for every other `query` value (a non-empty string, an array, an object), a provider call
that does not throw gives 200 with a `matches` body, and the server, whose
`searchBooks` never throws, answers 200 with a `matches` body. -/
theorem search_status_decision (P : Platform) (N : Network) (req : Request) :
    ((req.authorization = none ∨ req.authorization = some "") →
      ∀ provider, app P provider req = { status := 401, body := .error "Unauthorized" }) ∧
    ((∃ key, req.authorization = some key ∧ key ≠ "") →
      (req.query = none ∨ req.query = some (.str "")) →
      ∀ provider, app P provider req =
        { status := 400, body := .error "Query parameter is required" }) ∧
    ((∃ key, req.authorization = some key ∧ key ≠ "") →
      ∀ query, req.query = some query → query ≠ .str "" →
      (∀ provider result, provider query req.author = .ok result →
        app P provider req =
          { status := 200, body := .matches_ (result.matches_.map (formatBook P)) }) ∧
      (∃ result, searchBooks P N query req.author = .ok result) ∧
      ∃ records, server P N req = { status := 200, body := .matches_ records }) := by
  refine ⟨?_, ?_, ?_⟩
  · intro hauth provider
    exact app_unauthorized P provider req (strTruthy_of_absent_or_empty _ hauth)
  · intro hauth hquery provider
    exact app_missing_query P provider req (strTruthy_of_present _ hauth) hquery
  · intro hauth query hquery hne
    have hkey := strTruthy_of_present _ hauth
    refine ⟨?_, searchBooks_total P N query req.author, ?_⟩
    · intro provider result hres
      exact app_of_ok P provider req query result hkey hquery hne hres
    · obtain ⟨result, hres⟩ := searchBooks_total P N query req.author
      exact ⟨_, app_of_ok P (searchBooks P N) req query result hkey hquery hne hres⟩

/-- Witness of C7: a request without header, a request with an empty query, an
authorized request with a query on a network that is down, and an authorized request
whose query is an array of empty strings. -/
theorem search_status_decision_witness :
    server samplePlatform networkMixed
        { authorization := none, query := some (.str "Diuna"), author := none } =
        { status := 401, body := .error "Unauthorized" } ∧
      server samplePlatform networkMixed
          { authorization := some "Bearer abs", query := some (.str ""), author := none } =
        { status := 400, body := .error "Query parameter is required" } ∧
      (∃ records, server samplePlatform networkDown requestDiuna =
        { status := 200, body := .matches_ records }) ∧
      ∃ records, server samplePlatform networkBare requestEmptyTwice =
        { status := 200, body := .matches_ records } :=
  ⟨(search_status_decision samplePlatform networkMixed
      { authorization := none, query := some (.str "Diuna"), author := none }).1
      (Or.inl rfl) _,
    (search_status_decision samplePlatform networkMixed
      { authorization := some "Bearer abs", query := some (.str ""), author := none }).2.1
      ⟨"Bearer abs", rfl, by decide⟩ (Or.inr rfl) _,
    ((search_status_decision samplePlatform networkDown requestDiuna).2.2
      ⟨"Bearer abs", rfl, by decide⟩ (.str "Diuna") rfl (by simp)).2.2,
    ((search_status_decision samplePlatform networkBare requestEmptyTwice).2.2
      ⟨"Bearer abs", rfl, by decide⟩ (.arr [.str "", .str ""]) rfl (by simp)).2.2⟩

/-- C8 (failing input): a results page with one entry that has a title and a link but no
author element, requested with an authorized query.  The response has one record,
with a non-empty title, no `isbn`, no `asin`, and the empty string as `author`. -/
theorem search_response_author_can_be_empty (P : Platform) :
    entryNoAuthor.authorText = "" ∧
      server P networkNoAuthor requestDiuna =
        { status := 200
          body := .matches_ [
            { title := "Diuna", author := "", subtitle := none, narrator := none
              publisher := none, publishedYear := none, description := none
              cover := none, isbn := none, asin := none, genres := none, tags := none
              series := none, language := none, duration := none }] } :=
  ⟨rfl, rfl⟩

/-- C9 (failing input): a Candidate enriched from a successfully fetched detail page
that has no narrator, no category links and no series.  The formatted record has no
`narrator` and no `series`, but it has `genres`, with the empty array as value. -/
theorem formatBook_keeps_empty_genres (P : Platform) :
    pageBare.narratorText = "" ∧ pageBare.genreTexts = [] ∧ pageBare.seriesTexts = [] ∧
      (getFullMetadata P (networkBare.detail 0) (entryCandidate P entryDiuna)).map
        (fun r => ((formatBook P r).narrator, (formatBook P r).series,
          (formatBook P r).genres)) =
        .ok (none, none, some []) :=
  ⟨rfl, rfl, rfl, rfl⟩

/-- C10 (end-to-end graceful degradation): for an authorized request with a query, a
results page with Candidates `c_0 ..` and a Candidate `c` at position `i` whose detail
request throws, the answer is 200 with one record per Candidate; the record at
position `i` carries search-stage data only (`title`, `author` joined from `authors`,
`cover` when non-empty, nothing else); and on any network with the same results page
the record at a position `j` whose request has the same outcome is the same.  The
results page is the one fetched for the string conversion of `query`; for a string
`query` that is `query` itself. -/
theorem search_graceful_degradation (P : Platform) (N : Network) (req : Request)
    (query : QueryValue) (queryText authorText : String) (books : List Entry) (i : Nat)
    (c : Book) (e : JSError)
    (hauth : ∃ key, req.authorization = some key ∧ key ≠ "")
    (hquery : req.query = some query) (hne : query ≠ .str "")
    (hq : query.toText = .ok queryText)
    (ha : (req.author.getD (.str "")).toText = .ok authorText)
    (hpage : N.search (searchRequestUrl P queryText) = .ok books)
    (hc : (parseEntries P books)[i]? = some c)
    (hfail : N.detail i c.url = .error e) :
    ∃ records, server P N req = { status := 200, body := .matches_ records } ∧
      records.length = (parseEntries P books).length ∧
      records[i]? = some (searchStageRecord c) ∧
      ∀ (N' : Network) (j : Nat) (cj : Book),
        N'.search (searchRequestUrl P queryText) = .ok books →
        (parseEntries P books)[j]? = some cj →
        N'.detail j cj.url = N.detail j cj.url →
        ∃ records', server P N' req = { status := 200, body := .matches_ records' } ∧
          records'[j]? = records[j]? := by
  have hkey := strTruthy_of_present _ hauth
  obtain ⟨full, hres, hlen, hidx⟩ :=
    searchBooks_spec P N query req.author queryText authorText books hq ha hpage
  refine ⟨full.map (formatBook P), ?_, ?_, ?_, ?_⟩
  · exact app_of_ok P (searchBooks P N) req query _ hkey hquery hne hres
  · simpa using hlen
  · obtain ⟨r, hr, hfull⟩ := hidx i c hc
    rw [getFullMetadata_of_error P (N.detail i) c e hfail] at hfull
    have hrc : r = c := (Except.ok.inj hfull).symm
    subst hrc
    obtain ⟨element, hel⟩ := parseEntries_getElem? P books i r hc
    rw [List.getElem?_map, hr, Option.map_some', hel, formatBook_entryCandidate]
  · intro N' j cj hpage' hcj hsame
    obtain ⟨full', hres', _, hidx'⟩ :=
      searchBooks_spec P N' query req.author queryText authorText books hq ha hpage'
    refine ⟨full'.map (formatBook P), ?_, ?_⟩
    · exact app_of_ok P (searchBooks P N') req query _ hkey hquery hne hres'
    · obtain ⟨r, hr, hfull⟩ := hidx j cj hcj
      obtain ⟨r', hr', hfull'⟩ := hidx' j cj hcj
      rw [getFullMetadata_congr P (N'.detail j) (N.detail j) cj hsame, hfull] at hfull'
      have hrr : r = r' := Except.ok.inj hfull'
      rw [List.getElem?_map, List.getElem?_map, hr, hr', hrr]

/-- Witness of C10: the first Candidate of the sample results page, whose detail
request times out. -/
theorem search_graceful_degradation_witness :
    ∃ records, server samplePlatform networkMixed requestDiuna =
        { status := 200, body := .matches_ records } ∧
      records.length =
        (parseEntries samplePlatform [entryDiuna, entryNoTitle, entryNoHref]).length ∧
      records[0]? = some (searchStageRecord (entryCandidate samplePlatform entryDiuna)) ∧
      ∀ (N' : Network) (j : Nat) (cj : Book),
        N'.search (searchRequestUrl samplePlatform "Diuna") =
          .ok [entryDiuna, entryNoTitle, entryNoHref] →
        (parseEntries samplePlatform [entryDiuna, entryNoTitle, entryNoHref])[j]? = some cj →
        N'.detail j cj.url = networkMixed.detail j cj.url →
        ∃ records', server samplePlatform N' requestDiuna =
            { status := 200, body := .matches_ records' } ∧
          records'[j]? = records[j]? :=
  search_graceful_degradation samplePlatform networkMixed requestDiuna (.str "Diuna")
    "Diuna" "" [entryDiuna, entryNoTitle, entryNoHref] 0
    (entryCandidate samplePlatform entryDiuna) { message := "timeout" }
    ⟨"Bearer abs", rfl, by decide⟩ rfl (by simp) rfl rfl rfl rfl rfl

end Audioteka
